import Mathlib

/-!
Verification development for the game-frontend realtime session and voice
layer.  The definitions below are shallow embeddings of the TypeScript
sources: the Nakama session service (services/nakama.ts) and the WebRTC
voice-chat service (voiceChat.ts).  JavaScript numbers are modelled as
Nat or Rat, optional / nullable references as Option, callback invocations
as explicit effect lists, and async completions as explicit outcome values
fed into the (single-threaded) handler code.
-/

namespace GameFrontend

/-! ## OpCode constants (types/game.ts) -/

namespace OpCode

def STATE_UPDATE : Nat := 1

def MAKE_MOVE : Nat := 2

def WEBRTC_OFFER : Nat := 3

def WEBRTC_ANSWER : Nat := 4

def WEBRTC_ICE_CANDIDATE : Nat := 5

end OpCode

/-! ## Game data model (types/game.ts) -/

/-- Player symbol, the TypeScript union "X" | "O". -/
inductive Symbol where
  | X
  | O
deriving DecidableEq, Repr

/-- Game status, the TypeScript union "waiting" | "active" | "completed". -/
inductive GameStatus where
  | waiting
  | active
  | completed
deriving DecidableEq, Repr

/-- One entry of the GameState players map (keyed by userId). -/
structure PlayerEntry where
  userId : String
  username : String
  symbol : Symbol
  connected : Bool
deriving DecidableEq, Repr

/-- GameState from types/game.ts.  The players object is modelled as an
association list; JS numeric timestamps as Nat. -/
structure GameState where
  board : List (Option String)
  currentTurn : Option String
  players : List PlayerEntry
  status : GameStatus
  winner : Option String
  mode : String
  createdAt : Nat
  turnStartTimestamp : Option Nat
deriving DecidableEq, Repr

/-! ## Inbound demultiplexer (services/nakama.ts, handleMatchData) -/

/-- Observable effects of one handleMatchData invocation.  The fields list
every outbound callback channel the service object could reach from the
handler: the onMatchStateUpdate event, the three VoiceChatService signaling
handlers (handleOffer / handleAnswer / handleIceCandidate, with the raw
payload bytes), the console warning of the default branch, and the catch
branch of the surrounding try block.  The source handler only ever touches
stateUpdates, warnedUnknown and caughtError; the voice fields record what a
forwarding demultiplexer would emit and stay empty under the source code. -/
structure MatchDataEffects where
  stateUpdates : List GameState := []
  voiceOffers : List (List Nat) := []
  voiceAnswers : List (List Nat) := []
  voiceIceCandidates : List (List Nat) := []
  warnedUnknown : List Nat := []
  caughtError : Bool := false
deriving DecidableEq, Repr

/-- handleMatchData from services/nakama.ts.  The switch has exactly one
case, OpCode.STATE_UPDATE, which decodes the payload (TextDecoder plus
JSON.parse, abstracted as the decodeState argument) and raises
onMatchStateUpdate; every other opCode reaches the default branch, which
only logs a warning.  A decode exception is swallowed by the surrounding
try/catch (error log only), so the handler never throws to its caller. -/
def handleMatchData (decodeState : List Nat → Option GameState)
    (opCode : Nat) (data : List Nat) : MatchDataEffects :=
  if opCode = OpCode.STATE_UPDATE then
    match decodeState data with
    | some gameState => { stateUpdates := [gameState] }
    | none => { caughtError := true }
  else
    { warnedUnknown := [opCode] }

/-- Modelled from the spec: the demultiplexer the specification describes,
in which each of the three voice-signaling opCodes is forwarded verbatim
(payload bytes, from which the handlers read the sender id) to the
PeerConnectionController.  This definition exists only to be compared with
the source-derived handleMatchData above. -/
def handleMatchDataSpec (decodeState : List Nat → Option GameState)
    (opCode : Nat) (data : List Nat) : MatchDataEffects :=
  if opCode = OpCode.STATE_UPDATE then
    match decodeState data with
    | some gameState => { stateUpdates := [gameState] }
    | none => { caughtError := true }
  else if opCode = OpCode.WEBRTC_OFFER then
    { voiceOffers := [data] }
  else if opCode = OpCode.WEBRTC_ANSWER then
    { voiceAnswers := [data] }
  else if opCode = OpCode.WEBRTC_ICE_CANDIDATE then
    { voiceIceCandidates := [data] }
  else
    { warnedUnknown := [opCode] }

/-! ## Reconnect backoff (services/nakama.ts, attemptReconnect) -/

/-- The delay computed by attemptReconnect once reconnectAttempts holds the
number of the attempt being scheduled:
Math.min(1000 * Math.pow(2, attempt - 1), 30000). -/
def reconnectDelay (attempt : Nat) : Nat :=
  min (1000 * 2 ^ (attempt - 1)) 30000

/-! ## NakamaService connection state (services/nakama.ts) -/

/-- ConnectionStatus from types/nakama.ts. -/
inductive ConnectionStatus where
  | disconnected
  | connecting
  | connected
  | reconnecting
deriving DecidableEq, Repr

/-- The user-visible onError notifications the connection path can emit.
Each constructor stands for one literal message string of the source:
failedToConnect is "Failed to connect to server. Please try again."
(connectSocket catch branch) and lostConnection is "Lost connection to
server. Please refresh the page." (reconnect timer callback, the fatal
notification). -/
inductive ErrorNotification where
  | failedToConnect
  | lostConnection
deriving DecidableEq, Repr

/-- The mutable fields of the NakamaService instance that the connection,
reconnection and deletion code reads or writes.  The client / socket /
session / matchId object references are modelled by presence booleans;
reconnectTimeout (the pending setTimeout handle) by pendingReconnect. -/
structure NakamaState where
  hasSession : Bool
  hasSocket : Bool
  hasMatch : Bool
  connectionStatus : ConnectionStatus
  reconnectAttempts : Nat
  maxReconnectAttempts : Nat
  isLoggingOut : Bool
  pendingReconnect : Bool
deriving DecidableEq, Repr

/-- attemptReconnect: clears any pending timer, increments
reconnectAttempts, computes the backoff delay, sets status "reconnecting"
and schedules the retry timer.  Returns the new state and the scheduled
delay in milliseconds. -/
def attemptReconnect (s : NakamaState) : NakamaState × Nat :=
  let attempts := s.reconnectAttempts + 1
  ({ s with reconnectAttempts := attempts,
            connectionStatus := ConnectionStatus.reconnecting,
            pendingReconnect := true },
   reconnectDelay attempts)

/-- The socket ondisconnect handler installed by connectSocket: sets status
"disconnected"; during logout it returns at once; otherwise, if a session
exists, reconnection is enabled (maxReconnectAttempts > 0) and attempts
remain, it calls attemptReconnect.  Returns the new state and the scheduled
delay when a reconnect was scheduled. -/
def ondisconnect (s : NakamaState) : NakamaState × Option Nat :=
  let s0 := { s with connectionStatus := ConnectionStatus.disconnected }
  if s0.isLoggingOut then
    (s0, none)
  else if s0.hasSession = true ∧ 0 < s0.maxReconnectAttempts ∧
          s0.reconnectAttempts < s0.maxReconnectAttempts then
    let (s1, delay) := attemptReconnect s0
    (s1, some delay)
  else
    (s0, none)

/-- Result of one connectSocket call. -/
structure ConnectOutcome where
  ok : Bool
  state : NakamaState
  errors : List ErrorNotification
deriving DecidableEq, Repr

/-- connectSocket: without a session it returns false at once.  Otherwise
it sets status "connecting", creates the socket (handlers attached before
connecting), and awaits the connection: on success (the succeeds argument
models whether socket.connect resolves) status becomes "connected" and
reconnectAttempts is reset to 0; on failure status becomes "disconnected"
and, unless a logout is in progress, the failed-to-connect notification is
emitted. -/
def connectSocket (s : NakamaState) (succeeds : Bool) : ConnectOutcome :=
  if s.hasSession = false then
    { ok := false, state := s, errors := [] }
  else
    let s1 := { s with connectionStatus := ConnectionStatus.connecting,
                       hasSocket := true }
    if succeeds then
      { ok := true,
        state := { s1 with connectionStatus := ConnectionStatus.connected,
                           reconnectAttempts := 0 },
        errors := [] }
    else
      { ok := false,
        state := { s1 with connectionStatus := ConnectionStatus.disconnected },
        errors := if s1.isLoggingOut then [] else
          [ErrorNotification.failedToConnect] }

/-- The reconnect timer callback scheduled by attemptReconnect: it runs
connectSocket and, when that fails with the attempt budget exhausted
(reconnectAttempts >= maxReconnectAttempts), emits the fatal
lost-connection notification.  The succeeds argument models the outcome of
the inner connectSocket call. -/
def reconnectTimerFired (s : NakamaState) (succeeds : Bool) :
    NakamaState × List ErrorNotification :=
  let s0 := { s with pendingReconnect := false }
  let c := connectSocket s0 succeeds
  if c.ok = false ∧ c.state.maxReconnectAttempts ≤ c.state.reconnectAttempts then
    (c.state, c.errors ++ [ErrorNotification.lostConnection])
  else
    (c.state, c.errors)

/-- One full failed reconnect cycle, in event-loop order: the pending timer
fires, the inner connectSocket attempt fails (its promise rejects in the
same microtask turn, so the timer callback finishes first), and then the
socket close event delivers ondisconnect, which may schedule the next
attempt.  When no timer is pending nothing runs. -/
def failCycle (s : NakamaState) : NakamaState × List ErrorNotification :=
  if s.pendingReconnect = false then
    (s, [])
  else
    let (s1, msgs) := reconnectTimerFired s false
    ((ondisconnect s1).1, msgs)

/-- Iterate failCycle, counting the fatal lost-connection notifications
emitted along the way. -/
def runFailCycles : NakamaState → Nat → NakamaState × Nat
  | s, 0 => (s, 0)
  | s, k + 1 =>
    let (s1, msgs) := failCycle s
    let (s2, c) := runFailCycles s1 k
    (s2, msgs.count ErrorNotification.lostConnection + c)

/-- A freshly connected service as the fields stand in the source after a
successful connectSocket: session and socket live, status "connected",
reconnectAttempts reset to 0, maxReconnectAttempts at its initial value
10, no logout, no pending timer. -/
def connectedState : NakamaState :=
  { hasSession := true, hasSocket := true, hasMatch := false,
    connectionStatus := ConnectionStatus.connected,
    reconnectAttempts := 0, maxReconnectAttempts := 10,
    isLoggingOut := false, pendingReconnect := false }

/-! ## Account-data deletion (services/nakama.ts, deleteUserData) -/

/-- disconnect(): closes and clears the socket, clears session and
matchId.  Callable with no active socket. -/
def disconnect (s : NakamaState) : NakamaState :=
  { s with hasSocket := false, hasSession := false, hasMatch := false }

/-- The 8000 ms timeout raced against the delete_user_data RPC. -/
def deleteTimeoutMs : Nat := 8000

/-- The parsed JSON body of a delete_user_data RPC response:
{ success, error? }. -/
structure DeleteReply where
  success : Bool
  error : Option String := none
deriving DecidableEq, Repr

/-- The value deleteUserData resolves with:
{ success: boolean, error?: string, timeout?: boolean }.  Absent optional
fields are the defaults none / false. -/
structure DeleteResult where
  success : Bool
  error : Option String := none
  timeout : Bool := false
deriving DecidableEq, Repr

/-- How the awaited Promise.race([deletePromise, timeoutPromise]) settles,
together with what the temporary disconnect handler observed.
resolved: the RPC resolved first; its payload parsed to the given reply,
or was absent/falsy (none).  rejected: the race rejected (RPC error, or
the 8 s timer; the timer rejects with an Error whose message is
"timeout"); socketDisconnected tells whether the temporary ondisconnect
handler had fired by then, msgHasTimeout whether the error message
contains "timeout", and msg is the message itself. -/
inductive RaceOutcome where
  | resolved (payload : Option DeleteReply)
  | rejected (socketDisconnected : Bool) (msgHasTimeout : Bool) (msg : String)
deriving DecidableEq, Repr

/-- Everything observable about one deleteUserData call: the resolved
result, the service state when it returns, and whether the
delete_user_data RPC was actually issued. -/
structure DeleteOutcome where
  result : DeleteResult
  state : NakamaState
  rpcSent : Bool
deriving DecidableEq, Repr

/-- deleteUserData from services/nakama.ts.  Guard order as in the source:
no socket, then the isLoggingOut in-progress guard.  On acquiring the
guard it sets isLoggingOut, saves maxReconnectAttempts and zeroes it,
swaps in a temporary disconnect handler, issues the RPC and races it
against the 8 s timer (the race argument is how that race settled).
Response with success:false resolves as a server-reported failure;
success:true or a falsy payload resolves as success after disconnect();
a rejection with the socket seen disconnected resolves as success after
disconnect(); a timeout with the socket still connected resolves as the
distinct timeout failure; any other rejection is rethrown into the outer
catch and resolves as a generic failure with the error message.  Every
one of these exits restores maxReconnectAttempts and clears
isLoggingOut. -/
def deleteUserData (s : NakamaState) (race : RaceOutcome) : DeleteOutcome :=
  if s.hasSocket = false then
    { result := { success := false, error := some "Socket not connected" },
      state := s, rpcSent := false }
  else if s.isLoggingOut then
    { result := { success := false, error := some "Delete already in progress" },
      state := s, rpcSent := false }
  else
    let originalMaxReconnect := s.maxReconnectAttempts
    let s1 := { s with isLoggingOut := true, maxReconnectAttempts := 0 }
    let restore := fun (t : NakamaState) =>
      { t with maxReconnectAttempts := originalMaxReconnect,
               isLoggingOut := false }
    match race with
    | RaceOutcome.resolved (some reply) =>
      if reply.success = false then
        { result := { success := false,
                      error := some (reply.error.getD "Server reported failure") },
          state := restore s1, rpcSent := true }
      else
        { result := { success := true },
          state := restore (disconnect s1), rpcSent := true }
    | RaceOutcome.resolved none =>
      { result := { success := true },
        state := restore (disconnect s1), rpcSent := true }
    | RaceOutcome.rejected socketDisconnected msgHasTimeout msg =>
      if socketDisconnected then
        { result := { success := true },
          state := restore (disconnect s1), rpcSent := true }
      else if msgHasTimeout then
        { result := { success := false, error := some "Request timed out",
                      timeout := true },
          state := restore s1, rpcSent := true }
      else
        { result := { success := false, error := some msg },
          state := restore s1, rpcSent := true }

/-- The service state while a guarded deleteUserData call is in flight:
isLoggingOut set, maxReconnectAttempts temporarily zero. -/
def inFlightDeleteState (s : NakamaState) : NakamaState :=
  { s with isLoggingOut := true, maxReconnectAttempts := 0 }

/-! ## Voice chat service (voiceChat.ts) -/

/-- A MediaStreamTrack as the voice code uses it: the enabled flag toggled
by mute, and whether stop() has been called on it. -/
structure MediaTrack where
  enabled : Bool
  stopped : Bool
deriving DecidableEq, Repr

/-- The mutable fields of the VoiceChatService instance.  Object
references (peer connection, streams, audio element, audio context,
analysers) are presence values; the two function-valued fields are
presence booleans; the local stream carries its tracks. -/
structure VoiceState where
  peerConnection : Option Unit
  localStream : Option (List MediaTrack)
  remoteStream : Option Unit
  hasSendSignalCallback : Bool
  isInitiator : Bool
  isMuted : Bool
  currentUserId : Option String
  remoteAudio : Option Unit
  audioContext : Option Unit
  localAnalyser : Option Unit
  remoteAnalyser : Option Unit
  hasVoiceActivityCallback : Bool
  vadIntervalActive : Bool
  isLocalSpeaking : Bool
  isRemoteSpeaking : Bool
deriving DecidableEq, Repr

/-- The field values a freshly constructed VoiceChatService holds before
init is ever called. -/
def freshVoiceState : VoiceState :=
  { peerConnection := none, localStream := none, remoteStream := none,
    hasSendSignalCallback := false, isInitiator := false, isMuted := false,
    currentUserId := none, remoteAudio := none, audioContext := none,
    localAnalyser := none, remoteAnalyser := none,
    hasVoiceActivityCallback := false, vadIntervalActive := false,
    isLocalSpeaking := false, isRemoteSpeaking := false }

/-- External actions cleanup performs before clearing the references:
the final states of the local tracks it called stop() on, and whether it
closed the peer connection, cleared the VAD interval, closed the audio
context and paused the remote audio element. -/
structure CleanupEffects where
  stoppedTracks : List MediaTrack
  closedPeerConnection : Bool
  clearedInterval : Bool
  closedAudioContext : Bool
  pausedRemoteAudio : Bool
deriving DecidableEq, Repr

/-- cleanup() from voiceChat.ts: clears the VAD interval, closes the audio
context, calls stop() on every local track and drops the stream, pauses
and drops the remote audio element, closes and drops the peer connection,
then resets every remaining field (remoteStream, sendSignalCallback,
isInitiator, isMuted, currentUserId, analysers, voiceActivityCallback,
speaking flags).  Each step is guarded by a null check, so it is callable
from any state. -/
def cleanup (s : VoiceState) : VoiceState × CleanupEffects :=
  ({ s with vadIntervalActive := false,
            audioContext := none,
            localStream := none,
            remoteAudio := none,
            peerConnection := none,
            remoteStream := none,
            hasSendSignalCallback := false,
            isInitiator := false,
            isMuted := false,
            currentUserId := none,
            localAnalyser := none,
            remoteAnalyser := none,
            hasVoiceActivityCallback := false,
            isLocalSpeaking := false,
            isRemoteSpeaking := false },
   { stoppedTracks := (s.localStream.getD []).map
       (fun t => { t with stopped := true }),
     closedPeerConnection := s.peerConnection.isSome,
     clearedInterval := s.vadIntervalActive,
     closedAudioContext := s.audioContext.isSome,
     pausedRemoteAudio := s.remoteAudio.isSome })

/-- The message of the Error thrown by getMicrophoneAccess when
getUserMedia rejects. -/
def micDeniedMessage : String :=
  "Microphone access denied. Please enable microphone permissions."

/-- getMicrophoneAccess: on grant, stores the acquired stream (one live
audio track) in localStream; on refusal it rethrows the distinct
user-actionable microphone-denied Error. -/
def getMicrophoneAccess (micGranted : Bool) (s : VoiceState) :
    Except String VoiceState :=
  if micGranted then
    Except.ok { s with localStream := some [{ enabled := true, stopped := false }] }
  else
    Except.error micDeniedMessage

/-- init from voiceChat.ts: records userId, initiator role and the signal
callback, then in a try block acquires the microphone, creates the peer
connection (pcCreationOk models whether that step throws) and attaches
the local tracks; the initiator offer path never throws out (createOffer
catches internally).  Any thrown error is caught: init runs cleanup and
resolves false, so the caller receives only the boolean. -/
def init (s : VoiceState) (userId : String) (isInitiator : Bool)
    (micGranted : Bool) (pcCreationOk : Bool) : Bool × VoiceState :=
  let s1 := { s with currentUserId := some userId,
                     isInitiator := isInitiator,
                     hasSendSignalCallback := true }
  match getMicrophoneAccess micGranted s1 with
  | Except.error _ => (false, (cleanup s1).1)
  | Except.ok s2 =>
    if pcCreationOk then
      (true, { s2 with peerConnection := some () })
    else
      (false, (cleanup s2).1)

/-- toggleMute: with no local stream it logs and returns false; otherwise
it flips isMuted, sets every local audio track's enabled flag to the
negation of the new mute state, and returns the new mute state. -/
def toggleMute (s : VoiceState) : Bool × VoiceState :=
  match s.localStream with
  | none => (false, s)
  | some tracks =>
    let m := !s.isMuted
    (m, { s with isMuted := m,
                 localStream := some (tracks.map
                   (fun t => { t with enabled := !m })) })

/-- The fixed speech threshold 0.02 on the 0..1 scale. -/
def speechThreshold : ℚ := 2 / 100

/-- getAudioLevel: byte frequency data averaged and normalised to 0..1
(sum / length / 255).  JS floating point is modelled by exact rationals;
the analyser never hands over an empty array (frequencyBinCount = 128). -/
def getAudioLevel (dataArray : List Nat) : ℚ :=
  let sum : Nat := dataArray.foldl (fun a b => a + b) 0
  let average := (sum : ℚ) / (dataArray.length : ℚ)
  average / 255

/-- One invocation of the voice-activity callback: the reported speaking
value and whether it concerns the local stream. -/
structure VadCall where
  isSpeaking : Bool
  isLocal : Bool
deriving DecidableEq, Repr

/-- One tick of the 100 ms VAD interval from
startVoiceActivityMonitoring.  The local branch runs only when a local
analyser exists and the microphone is not muted; the remote branch only
needs a remote analyser.  Each branch measures the level, compares it to
the threshold, and invokes the callback (when set) only on a transition
of the corresponding speaking flag.  localData / remoteData are the byte
frequency arrays the analysers would deliver this tick. -/
def vadTick (s : VoiceState) (localData remoteData : List Nat) :
    VoiceState × List VadCall :=
  let stepLocal :=
    if s.localAnalyser.isSome && !s.isMuted then
      let localLevel := getAudioLevel localData
      let speaking := decide (speechThreshold < localLevel)
      if speaking ≠ s.isLocalSpeaking then
        ({ s with isLocalSpeaking := speaking },
         if s.hasVoiceActivityCallback then
           [{ isSpeaking := speaking, isLocal := true }] else [])
      else (s, [])
    else (s, [])
  let s1 := stepLocal.1
  let stepRemote :=
    if s1.remoteAnalyser.isSome then
      let remoteLevel := getAudioLevel remoteData
      let speaking := decide (speechThreshold < remoteLevel)
      if speaking ≠ s1.isRemoteSpeaking then
        ({ s1 with isRemoteSpeaking := speaking },
         if s1.hasVoiceActivityCallback then
           [{ isSpeaking := speaking, isLocal := false }] else [])
      else (s1, [])
    else (s1, [])
  (stepRemote.1, stepLocal.2 ++ stepRemote.2)

/-- The service state reached once the reconnect budget is exhausted:
parked in "disconnected", attempts at the ceiling, no pending timer. -/
def parkedState : NakamaState :=
  { hasSession := true, hasSocket := true, hasMatch := false,
    connectionStatus := ConnectionStatus.disconnected,
    reconnectAttempts := 10, maxReconnectAttempts := 10,
    isLoggingOut := false, pendingReconnect := false }

/-- A concrete decoded game state, used to instantiate decode functions in
witnesses. -/
def sampleGameState : GameState :=
  { board := [none, none, none, none, none, none, none, none, none],
    currentTurn := none, players := [], status := GameStatus.active,
    winner := none, mode := "timed", createdAt := 0,
    turnStartTimestamp := none }

/-- A voice-chat state in which monitoring runs and the microphone is
muted: analysers and callback installed, isMuted set. -/
def mutedVoiceState : VoiceState :=
  { freshVoiceState with isMuted := true,
                         localAnalyser := some (),
                         remoteAnalyser := some (),
                         hasVoiceActivityCallback := true,
                         vadIntervalActive := true,
                         localStream := some [{ enabled := false, stopped := false }] }

/-! ## Shared lemmas -/

/-- With no pending reconnect timer nothing ever runs again: iterating
failCycle is the identity and emits no notification. -/
theorem runFailCycles_stable (m : Nat) (s : NakamaState)
    (h : s.pendingReconnect = false) : runFailCycles s m = (s, 0) := by
  induction m with
  | zero => rfl
  | succ k ih => simp [runFailCycles, failCycle, h, ih]

/-- runFailCycles splits over addition of cycle counts, with the fatal
counts adding up. -/
theorem runFailCycles_add (a : Nat) :
    ∀ (s : NakamaState) (b : Nat),
      runFailCycles s (a + b) =
        ((runFailCycles (runFailCycles s a).1 b).1,
         (runFailCycles s a).2 + (runFailCycles (runFailCycles s a).1 b).2) := by
  induction a with
  | zero => intro s b; simp [runFailCycles]
  | succ k ih =>
    intro s b
    have hsucc : k + 1 + b = (k + b) + 1 := by omega
    rw [hsucc]
    simp only [runFailCycles, ih]
    rw [Nat.add_assoc]

/-! ## Claim theorems -/

/-- C3: for every attempt count n >= 1, the delay computed when scheduling
attempt n equals min(1000 * 2^(n-1), 30000) milliseconds, and the delay is
non-decreasing in n. -/
theorem reconnectDelay_spec (n : Nat) (hn : 1 ≤ n) :
    reconnectDelay n = min (1000 * 2 ^ (n - 1)) 30000 ∧
    ∀ m, n ≤ m → reconnectDelay n ≤ reconnectDelay m := by
  refine ⟨rfl, fun m hm => ?_⟩
  exact min_le_min
    (Nat.mul_le_mul (le_refl 1000)
      (Nat.pow_le_pow_right (by norm_num) (by omega)))
    (le_refl 30000)

/-- Witness for C3 at attempts 3 and 7. -/
theorem reconnectDelay_spec_witness :
    reconnectDelay 3 = min (1000 * 2 ^ (3 - 1)) 30000 ∧
    reconnectDelay 3 ≤ reconnectDelay 7 :=
  ⟨(reconnectDelay_spec 3 (by norm_num)).1,
   (reconnectDelay_spec 3 (by norm_num)).2 7 (by norm_num)⟩

/-- C4: starting from a connected service with maxReconnectAttempts = 10,
an unsolicited drop followed by any number k >= 10 of failed reconnect
cycles leaves the service parked: exactly one fatal lost-connection
notification has fired, reconnectAttempts stands at 10 with no further
timer pending (so no 11th attempt is ever scheduled), and the connection
status remains disconnected. -/
theorem reconnect_exhaustion (k : Nat) (hk : 10 ≤ k) :
    runFailCycles (ondisconnect connectedState).1 k = (parkedState, 1) ∧
    parkedState.pendingReconnect = false ∧
    parkedState.reconnectAttempts = 10 ∧
    parkedState.connectionStatus = ConnectionStatus.disconnected := by
  obtain ⟨m, rfl⟩ : ∃ m, k = 10 + m := ⟨k - 10, by omega⟩
  have h10 : runFailCycles (ondisconnect connectedState).1 10 = (parkedState, 1) := by
    decide
  refine ⟨?_, rfl, rfl, rfl⟩
  rw [runFailCycles_add, h10]
  simp [runFailCycles_stable m parkedState rfl]

/-- Witness for C4 at k = 12 cycles. -/
theorem reconnect_exhaustion_witness :
    runFailCycles (ondisconnect connectedState).1 12 = (parkedState, 1) :=
  (reconnect_exhaustion 12 (by norm_num)).1

/-- C5: every connectSocket call that resolves true leaves the stored
reconnect attempt counter at 0, and if the disconnect handler later
schedules a reconnect from that state, it is attempt 1 with the base
1000 ms delay. -/
theorem connectSocket_resets_backoff (s : NakamaState) (succeeds : Bool)
    (h : (connectSocket s succeeds).ok = true) :
    (connectSocket s succeeds).state.reconnectAttempts = 0 ∧
    ∀ d, (ondisconnect (connectSocket s succeeds).state).2 = some d →
      d = reconnectDelay 1 ∧ d = 1000 ∧
      (ondisconnect (connectSocket s succeeds).state).1.reconnectAttempts = 1 := by
  by_cases hsess : s.hasSession = false
  · simp [connectSocket, hsess] at h
  · cases succeeds with
    | false => simp [connectSocket, hsess] at h
    | true =>
      constructor
      · simp [connectSocket, hsess]
      · intro d hd
        simp only [connectSocket, hsess, if_false, if_true] at hd ⊢
        simp only [ondisconnect, attemptReconnect] at hd ⊢
        by_cases hlog : s.isLoggingOut
        · simp [hlog] at hd
        · by_cases hmax : 0 < s.maxReconnectAttempts
          · simp [hlog, hmax] at hd ⊢
            simp [← hd, reconnectDelay]
          · simp [hlog, hmax] at hd

/-- Witness for C5 from the parked state (a manual retry after
exhaustion): the successful connect resets the counter and the next drop
schedules attempt 1 at 1000 ms. -/
theorem connectSocket_resets_backoff_witness :
    (connectSocket parkedState true).state.reconnectAttempts = 0 ∧
    ((1000 : Nat) = reconnectDelay 1 ∧ (1000 : Nat) = 1000 ∧
      (ondisconnect (connectSocket parkedState true).state).1.reconnectAttempts = 1) :=
  ⟨(connectSocket_resets_backoff parkedState true rfl).1,
   (connectSocket_resets_backoff parkedState true rfl).2 1000 (by decide)⟩

/-- C2: for a deleteUserData call that acquires the in-progress guard, a
disconnect observed inside the 8 s window resolves as success; a timeout
with the socket still open resolves as the distinct timeout failure,
never equal to a server-reported failure result; and a second call made
while one is in flight resolves immediately as already-in-progress
without issuing a second RPC. -/
theorem deleteUserData_spec (s : NakamaState)
    (hsock : s.hasSocket = true) (hguard : s.isLoggingOut = false) :
    deleteTimeoutMs = 8000 ∧
    (∀ mt msg, (deleteUserData s (RaceOutcome.rejected true mt msg)).result =
      { success := true }) ∧
    (∀ msg, (deleteUserData s (RaceOutcome.rejected false true msg)).result =
      { success := false, error := some "Request timed out", timeout := true }) ∧
    (∀ reply msg, reply.success = false →
      (deleteUserData s (RaceOutcome.rejected false true msg)).result ≠
        (deleteUserData s (RaceOutcome.resolved (some reply))).result) ∧
    (∀ race, deleteUserData (inFlightDeleteState s) race =
      { result := { success := false, error := some "Delete already in progress" },
        state := inFlightDeleteState s, rpcSent := false }) := by
  refine ⟨rfl, ?_, ?_, ?_, ?_⟩
  · intro mt msg; simp [deleteUserData, hsock, hguard]
  · intro msg; simp [deleteUserData, hsock, hguard]
  · intro reply msg hfail hcontra
    have h1 : (deleteUserData s (RaceOutcome.rejected false true msg)).result.timeout
        = true := by
      simp [deleteUserData, hsock, hguard]
    have h2 : (deleteUserData s (RaceOutcome.resolved (some reply))).result.timeout
        = false := by
      simp [deleteUserData, hsock, hguard, hfail]
    rw [hcontra] at h1
    rw [h1] at h2
    exact Bool.true_eq_false.mp h2
  · intro race
    simp [deleteUserData, inFlightDeleteState, hsock]

/-- Witness for C2 from the connected state. -/
theorem deleteUserData_spec_witness :
    (deleteUserData connectedState (RaceOutcome.rejected true false "socket closed")).result =
      { success := true } ∧
    (deleteUserData connectedState (RaceOutcome.rejected false true "timeout")).result =
      { success := false, error := some "Request timed out", timeout := true } ∧
    deleteUserData (inFlightDeleteState connectedState) (RaceOutcome.resolved none) =
      { result := { success := false, error := some "Delete already in progress" },
        state := inFlightDeleteState connectedState, rpcSent := false } :=
  ⟨(deleteUserData_spec connectedState rfl rfl).2.1 false "socket closed",
   (deleteUserData_spec connectedState rfl rfl).2.2.1 "timeout",
   (deleteUserData_spec connectedState rfl rfl).2.2.2.2 (RaceOutcome.resolved none)⟩

/-- C10: every exit path of a deleteUserData call that acquired the
in-progress guard restores maxReconnectAttempts to its pre-call value and
clears the isLoggingOut guard flag. -/
theorem deleteUserData_frame (s : NakamaState) (race : RaceOutcome)
    (hsock : s.hasSocket = true) (hguard : s.isLoggingOut = false) :
    (deleteUserData s race).state.maxReconnectAttempts = s.maxReconnectAttempts ∧
    (deleteUserData s race).state.isLoggingOut = false := by
  cases race with
  | resolved payload =>
    cases payload with
    | none => simp [deleteUserData, hsock, hguard, disconnect]
    | some reply =>
      by_cases hr : reply.success = false <;>
        simp [deleteUserData, hsock, hguard, disconnect, hr]
  | rejected sd mt msg =>
    cases sd <;> cases mt <;>
      simp [deleteUserData, hsock, hguard, disconnect]

/-- Witness for C10 on the timeout exit path. -/
theorem deleteUserData_frame_witness :
    (deleteUserData connectedState (RaceOutcome.rejected false true "timeout")).state.maxReconnectAttempts
      = connectedState.maxReconnectAttempts ∧
    (deleteUserData connectedState (RaceOutcome.rejected false true "timeout")).state.isLoggingOut
      = false :=
  deleteUserData_frame connectedState (RaceOutcome.rejected false true "timeout") rfl rfl

/-- C1 (counterexample): an inbound envelope carrying the WEBRTC_OFFER
opCode is not forwarded to the voice-chat controller: the handler emits no
voice-handler invocation at all, lands in the default warn branch, and
therefore differs from the spec-described forwarding demultiplexer at this
concrete input. -/
theorem handleMatchData_no_voice_forwarding :
    (handleMatchData (fun _ => none) OpCode.WEBRTC_OFFER [7]).voiceOffers = [] ∧
    (handleMatchData (fun _ => none) OpCode.WEBRTC_OFFER [7]).warnedUnknown =
      [OpCode.WEBRTC_OFFER] ∧
    handleMatchData (fun _ => none) OpCode.WEBRTC_OFFER [7] ≠
      handleMatchDataSpec (fun _ => none) OpCode.WEBRTC_OFFER [7] := by
  refine ⟨rfl, rfl, ?_⟩
  decide

/-- C1 (amended): the demultiplexer branches on opCode: a STATE_UPDATE
envelope whose payload decodes raises the game-state-updated event with
the decoded snapshot, while each of the three voice-signaling codes falls
into the default branch — logged as an unknown opCode and dropped, never
forwarded to the VoiceChatService handlers. -/
theorem handleMatchData_demux (decodeState : List Nat → Option GameState)
    (data : List Nat) :
    (∀ g, decodeState data = some g →
      handleMatchData decodeState OpCode.STATE_UPDATE data =
        { stateUpdates := [g] }) ∧
    handleMatchData decodeState OpCode.WEBRTC_OFFER data =
      { warnedUnknown := [OpCode.WEBRTC_OFFER] } ∧
    handleMatchData decodeState OpCode.WEBRTC_ANSWER data =
      { warnedUnknown := [OpCode.WEBRTC_ANSWER] } ∧
    handleMatchData decodeState OpCode.WEBRTC_ICE_CANDIDATE data =
      { warnedUnknown := [OpCode.WEBRTC_ICE_CANDIDATE] } := by
  refine ⟨fun g hg => ?_, ?_, ?_, ?_⟩
  · simp [handleMatchData, hg]
  · rfl
  · rfl
  · rfl

/-- Witness for C1 (amended) with a decoder that yields the sample game
state. -/
theorem handleMatchData_demux_witness :
    handleMatchData (fun _ => some sampleGameState) OpCode.STATE_UPDATE [] =
      { stateUpdates := [sampleGameState] } ∧
    handleMatchData (fun _ => some sampleGameState) OpCode.WEBRTC_OFFER [] =
      { warnedUnknown := [OpCode.WEBRTC_OFFER] } :=
  ⟨(handleMatchData_demux (fun _ => some sampleGameState) []).1 sampleGameState rfl,
   (handleMatchData_demux (fun _ => some sampleGameState) []).2.1⟩

/-- C9: an inbound envelope whose opCode is not the one discriminator the
switch recognizes is dropped: the handler returns the warn-only effect
record — no event callback fires, no voice handler is invoked, nothing is
thrown (caughtError is false), and the opCode is merely logged. -/
theorem handleMatchData_drops_unknown (decodeState : List Nat → Option GameState)
    (opCode : Nat) (data : List Nat) (h : opCode ≠ OpCode.STATE_UPDATE) :
    handleMatchData decodeState opCode data = { warnedUnknown := [opCode] } := by
  simp [handleMatchData, h]

/-- Witness for C9 at the unrecognized opCode 99. -/
theorem handleMatchData_drops_unknown_witness :
    handleMatchData (fun _ => none) 99 [1, 2, 3] = { warnedUnknown := [99] } :=
  handleMatchData_drops_unknown (fun _ => none) 99 [1, 2, 3] (by decide)

/-- C6 (counterexample): when the platform refuses the microphone, init
resolves with the same caller-visible outcome (false, cleaned-up state) as
a generic failure such as peer-connection creation throwing — the distinct
microphone-denied error does not propagate to init's caller and is not
distinguishable there. -/
theorem init_mic_denied_indistinguishable :
    (init freshVoiceState "u1" true false true).1 = false ∧
    (init freshVoiceState "u1" true true false).1 = false ∧
    init freshVoiceState "u1" true false true =
      init freshVoiceState "u1" true true false := by
  refine ⟨rfl, rfl, ?_⟩
  decide

/-- C6 (amended): when the platform refuses the microphone,
getMicrophoneAccess throws the distinct user-actionable
microphone-denied error inside the service; init catches it, performs a
full cleanup and resolves false, so voice chat does not start (no peer
connection, no local stream), but init's caller receives only the generic
boolean false. -/
theorem init_mic_denied (s : VoiceState) (userId : String)
    (isInitiator pcCreationOk : Bool) :
    getMicrophoneAccess false s = Except.error micDeniedMessage ∧
    init s userId isInitiator false pcCreationOk = (false, freshVoiceState) ∧
    (init s userId isInitiator false pcCreationOk).2.peerConnection = none ∧
    (init s userId isInitiator false pcCreationOk).2.localStream = none :=
  ⟨rfl, rfl, rfl, rfl⟩

/-- C7: on a VAD tick taken while the microphone is muted, the
voice-activity callback is never invoked for the local stream — whatever
the measured input levels — and the stored local-speaking flag does not
change, so no local-speaking report can occur until unmuted. -/
theorem vadTick_muted_never_reports_local (s : VoiceState)
    (localData remoteData : List Nat) (h : s.isMuted = true) :
    ((vadTick s localData remoteData).2.all (fun c => !c.isLocal)) = true ∧
    (vadTick s localData remoteData).1.isLocalSpeaking = s.isLocalSpeaking := by
  simp only [vadTick, h, Bool.not_true, Bool.and_false]
  constructor <;> split_ifs <;> simp_all

/-- Witness for C7: a muted service with a loud local signal makes no
local callback report on the tick. -/
theorem vadTick_muted_never_reports_local_witness :
    ((vadTick mutedVoiceState [255, 255, 255] [0, 0]).2.all
      (fun c => !c.isLocal)) = true ∧
    (vadTick mutedVoiceState [255, 255, 255] [0, 0]).1.isLocalSpeaking =
      mutedVoiceState.isLocalSpeaking :=
  vadTick_muted_never_reports_local mutedVoiceState [255, 255, 255] [0, 0] rfl

/-- C8: cleanup is total and idempotent: from any state (including the
never-started fresh one) it resets every internal reference to the fresh
values, every local track it handled has been stopped, and a second call
finds nothing left — it returns the same cleared state with no track to
stop and nothing to close. -/
theorem cleanup_idempotent_total (s : VoiceState) :
    (cleanup s).1 = freshVoiceState ∧
    ((cleanup s).2.stoppedTracks.all (fun t => t.stopped)) = true ∧
    cleanup (cleanup s).1 =
      (freshVoiceState,
       { stoppedTracks := [], closedPeerConnection := false,
         clearedInterval := false, closedAudioContext := false,
         pausedRemoteAudio := false }) ∧
    cleanup freshVoiceState =
      (freshVoiceState,
       { stoppedTracks := [], closedPeerConnection := false,
         clearedInterval := false, closedAudioContext := false,
         pausedRemoteAudio := false }) := by
  refine ⟨rfl, ?_, rfl, rfl⟩
  simp [cleanup, List.all_map, Function.comp]

end GameFrontend
